import Mathlib

/-!
Verification of the FAB (Flow Annealed Bootstrapping) training-with-buffer
subsystem of the se3-augmented-coupling-flows repository.

The development shallowly embeds the Python sources:
  * `train/fab_train_with_buffer.py` — the FAB loss on buffer samples,
    `one_gradient_update`, and the `step` function of
    `build_fab_with_buffer_init_step_fns` (including the buffer-seeding
    arithmetic of `init`);
  * `examples/create_train_config.py` — `get_optimizer_and_step_fn`;
  * `utils/train_and_eval.py` — the ESS diagnostic of `eval_fn`;
  * `target/double_well.py` — `energy` and `log_prob_fn`.

Machine floats are embedded as real numbers; configuration floats are
embedded as rationals where decidable equality is needed (Python truthiness
tests).  External collaborators (the prioritised buffer operations, the SMC
forward pass, optax optimizer updates, JAX PRNG splitting, automatic
differentiation) are opaque function fields of a context structure, exactly
as they are opaque callables from the point of view of the embedded code.
-/

open scoped BigOperators

/-! ## Diagnostics dictionaries

Python `dict`s of named scalar diagnostics, with `info.update(...)`
overwrite semantics, are embedded as partial maps from keys to reals. -/

abbrev Info := String → Option ℝ

def emptyInfo : Info := fun _ => none

/-- Insert or overwrite a single key, as a Python `d[k] = v` /
`d.update(k=v)` on one key. -/
def Info.set (d : Info) (k : String) (v : ℝ) : Info :=
  fun k2 => if k2 = k then some v else d k2

/-- Python `d.update(e)`: keys of `e` overwrite those of `d`. -/
def Info.update (d e : Info) : Info :=
  fun k => match e k with
  | some v => some v
  | none => d k

/-! ## fab_loss_buffer_samples (train/fab_train_with_buffer.py, lines 24-40)

The batch of samples `x` is kept abstract (type `X`); the flow log-density
`log_q_fn_apply` maps parameters and a batch to the vector of per-sample
log-densities, as the Python callable does.  `jax.lax.stop_gradient` is the
identity on values; `jnp.clip(v, a_max=c)` is `min v c`; `jnp.mean` over a
batch of size `nb` is the sum divided by `nb`. -/

noncomputable def fab_loss_buffer_samples {P X : Type} {nb : ℕ}
    (params : P) (x : X) (log_q_old : Fin nb → ℝ) (alpha : ℝ)
    (log_q_fn_apply : P → X → Fin nb → ℝ) (w_adjust_clip : ℝ) :
    ℝ × ((Fin nb → ℝ) × (Fin nb → ℝ)) :=
  let log_q := log_q_fn_apply params x
  let log_w_adjust := fun i => (1 - alpha) * (log_q i - log_q_old i)
  let w_adjust := fun i => min (Real.exp (log_w_adjust i)) w_adjust_clip
  (- ((∑ i, w_adjust i * log_q i) / (nb : ℝ)), (log_w_adjust, log_q))

/-! ## Buffer seeding arithmetic of `init`
(train/fab_train_with_buffer.py, lines 84-104)

`init` runs `n_forward_pass = (buffer.min_lengtht_to_sample // batch_size) + 1`
SMC passes of `batch_size` samples each and seeds the buffer with all of
them. -/

def n_forward_pass (min_length batch_size : ℕ) : ℕ :=
  min_length / batch_size + 1

/-- The number of samples handed to `buffer.init` by the training `init`
function: `n_forward_pass * batch_size`. -/
def n_init_seed_samples (min_length batch_size : ℕ) : ℕ :=
  n_forward_pass min_length batch_size * batch_size

/-- Modelled from the spec: the buffer's `init` operation (from the external
`fabjax.buffer` package, not part of the repository sources available here)
"fails if the number of provided samples is less than the configured minimum
fill length". -/
def buffer_init_underfull (n_samples min_length : ℕ) : Prop :=
  n_samples < min_length

instance (n m : ℕ) : Decidable (buffer_init_underfull n m) :=
  Nat.decLt n m

/-! ## Double-well target (target/double_well.py) -/

/-- Embedding of `get_pairwise_distances(x)`: entry `[i, j]` is
`‖x[j] - x[i]‖₂` for a rank-2 input
`x` of shape `[n, d]` (`jnp.linalg.norm(x - x[:, None], ord=2, axis=-1)`). -/
noncomputable def get_pairwise_distances {n d : ℕ} (x : Fin n → Fin d → ℝ) :
    Fin n → Fin n → ℝ :=
  fun i j => Real.sqrt (∑ k, (x j k - x i k) ^ 2)

/-- Embedding of `energy(x, a, b, c, d0, tau)`: sum over the full pairwise-distance
matrix of `a·y + b·y² + c·y⁴` with `y = dist − d0`, divided by `tau` and by
`2`. -/
noncomputable def energy {n d : ℕ} (a b c d0 tau : ℝ) (x : Fin n → Fin d → ℝ) : ℝ :=
  let differences := get_pairwise_distances x
  (∑ i, ∑ j,
      (a * (differences i j - d0) + b * (differences i j - d0) ^ 2 +
        c * (differences i j - d0) ^ 4)) / tau / 2

/-- The `energy` function at the Python default hyper-parameters
`a = 0.0, b = -4., c = 0.9, d0 = 4.0, tau = 1.0`. -/
noncomputable def energyDefault {n d : ℕ} (x : Fin n → Fin d → ℝ) : ℝ :=
  energy 0 (-4) (9 / 10) 4 1 x

/-- An input array to `log_prob_fn`, tagged by its rank: a single
configuration (rank 2, shape `[n, d]`), a batch of configurations (rank 3,
shape `[b, n, d]`), or an array of any other rank (whose data cannot reach
the energy computation, so only the rank is recorded). -/
inductive DWInput : Type where
  | rank2 : (n d : ℕ) → (Fin n → Fin d → ℝ) → DWInput
  | rank3 : (b n d : ℕ) → (Fin b → Fin n → Fin d → ℝ) → DWInput
  | rankOther : (rank : ℕ) → DWInput

/-- Result of `log_prob_fn`: a scalar for rank-2 input, a vector of length
`b` for rank-3 input. -/
inductive DWOutput : Type where
  | scalar : ℝ → DWOutput
  | vector : (b : ℕ) → (Fin b → ℝ) → DWOutput

/-- Embedding of `log_prob_fn(x)` (target/double_well.py, lines 17-23): dispatch on
`len(x.shape)`; rank 2 gives `-energy(x)`, rank 3 gives
`-jax.vmap(energy)(x)`, any other rank raises `Exception`. -/
noncomputable def log_prob_fn : DWInput → Except String DWOutput
  | .rank2 _ _ x => .ok (.scalar (- energyDefault x))
  | .rank3 b _ _ x => .ok (.vector b (fun i => - energyDefault (x i)))
  | .rankOther _ => .error "Exception"

/-! ## ESS diagnostic (utils/train_and_eval.py, lines 122-129)

`eval_fn` computes `ess = 1 / jnp.sum(jax.nn.softmax(log_w) ** 2)
/ log_w.shape[0]`. -/

/-- Embedding of `jax.nn.softmax` on a vector of `m` logits (its mathematical value;
the max-subtraction JAX performs for numerical stability does not change
the real value). -/
noncomputable def softmax {m : ℕ} (w : Fin m → ℝ) : Fin m → ℝ :=
  fun i => Real.exp (w i) / ∑ j, Real.exp (w j)

/-- The ESS value placed in the `info` dict by `eval_fn`:
`1 / sum(softmax(log_w) ** 2) / log_w.shape[0]`. -/
noncomputable def ess_diagnostic {m : ℕ} (log_w : Fin m → ℝ) : ℝ :=
  1 / (∑ i, softmax log_w i ^ 2) / (m : ℝ)

/-! ## The FAB training step (train/fab_train_with_buffer.py, lines 44-169)

`build_fab_with_buffer_init_step_fns` closes over a flow, a target
log-density, an SMC sampler, a prioritised buffer and an optimizer, all of
which are opaque collaborators (external packages).  They are embedded as
the function fields of `FabTraining` below.  Type parameters:
`P` flow parameters, `O` optimizer state, `G` gradients, `X` a batch of
(flattened) samples, `K` PRNG keys, `S` SMC state, `B` buffer state,
`I` buffer indices; `nb` is the batch size (rows per sampled batch). -/

/-- Output of one SMC forward pass (`smc_forward` built by
`build_smc_forward_pass`, called with `unflatten_output=False`): the flow
samples, the final SMC samples, their log-weights, their flow log-densities,
the updated SMC state and a diagnostics dict. -/
structure SmcOutput (X W S : Type) where
  sample_flow : X
  x_smc : X
  log_w : W
  log_q : W
  smc_state : S
  smc_info : Info

/-- The collaborators and hyper-parameters closed over by
`build_fab_with_buffer_init_step_fns`.  `opt_is_ignore_nan` records the
trace-time fact `isinstance(opt_state, IgnoreNanOptState)` (a Python type
check on the optimizer-state type, constant across all scan iterations of a
jitted step); `ignored_grads_count` is the `.ignored_grads_count` field read
from such a state. -/
structure FabTraining (P O G X K S B I : Type) (nb : ℕ) where
  flow_log_prob_apply : P → X → Fin nb → ℝ
  loss_grad : P → X → (Fin nb → ℝ) → G
  opt_update : G → O → P → G × O
  apply_updates : P → G → P
  global_norm : G → ℝ
  max_flat_grad : G → ℝ
  opt_is_ignore_nan : Bool
  ignored_grads_count : O → ℕ
  rng_split : K → K × K
  sample_n_batches : K → B → List (X × (Fin nb → ℝ)) × I
  buffer_adjust : List (Fin nb → ℝ) → List (Fin nb → ℝ) → I → B → B
  buffer_add : X → (Fin nb → ℝ) → (Fin nb → ℝ) → B → B
  smc_forward : P → S → K → SmcOutput X (Fin nb → ℝ) S
  alpha : ℝ
  w_adjust_clip : ℝ

/-- Embedding of `TrainStateWithBuffer` (train/fab_train_with_buffer.py, lines 44-49). -/
structure TrainStateWithBuffer (P K O S B : Type) where
  params : P
  key : K
  opt_state : O
  smc_state : S
  buffer_state : B

/-- Embedding of `jax.lax.scan`: thread a carry through a list of inputs, collecting the
per-iteration outputs in order. -/
def scanUpdates {C A D : Type} (f : C → A → C × D) : C → List A → C × List D
  | c, [] => (c, [])
  | c, a :: rest =>
    let s := f c a
    let t := scanUpdates f s.1 rest
    (t.1, s.2 :: t.2)

/-- Embedding of `one_gradient_update` (train/fab_train_with_buffer.py, lines 109-132):
one SGD step on a batch from the buffer.  The gradient of the loss (computed
by `jax.value_and_grad`) is the opaque `loss_grad` field; the loss value and
its auxiliary outputs are those of `fab_loss_buffer_samples`.  Note the
source stores `jnp.log` (natural log) of the max flattened gradient under
the key `log10_max_param_grad`. -/
noncomputable def one_gradient_update {P O G X K S B I : Type} {nb : ℕ}
    (ctx : FabTraining P O G X K S B I nb)
    (carry : P × O) (xs : X × (Fin nb → ℝ)) :
    (P × O) × (Info × (Fin nb → ℝ) × (Fin nb → ℝ)) :=
  let flow_params := carry.1
  let opt_state := carry.2
  let x := xs.1
  let log_q_old := xs.2
  let lossOut := fab_loss_buffer_samples flow_params x log_q_old ctx.alpha
    ctx.flow_log_prob_apply ctx.w_adjust_clip
  let loss := lossOut.1
  let log_w_adjust := lossOut.2.1
  let log_q := lossOut.2.2
  let grad := ctx.loss_grad flow_params x log_q_old
  let upd := ctx.opt_update grad opt_state flow_params
  let new_params := ctx.apply_updates flow_params upd.1
  let grad_norm := ctx.global_norm grad
  let info0 := ((emptyInfo.set "loss" loss).set "log10_grad_norm"
      (Real.logb 10 grad_norm)).set "log10_max_param_grad"
      (Real.log (ctx.max_flat_grad grad))
  let info := if ctx.opt_is_ignore_nan then
      info0.set "ignored_grad_count" (ctx.ignored_grads_count opt_state : ℝ)
    else info0
  ((new_params, upd.2), (info, log_w_adjust, log_q))

/-- The info-merging loop of `step` (train/fab_train_with_buffer.py, lines
153-155): `for i in range(n): info.update(tree_map(lambda x: x[i], infos))`,
starting from the empty dict, iterating over the per-update info dicts in
order. -/
def mergeInfos (infos : List Info) : Info :=
  infos.foldl Info.update emptyInfo

/-- Embedding of `step` (train/fab_train_with_buffer.py, lines 134-169): one iteration of
the FAB algorithm.  In source order: split the key; sample `n` batches from
the buffer; scan `one_gradient_update` over them; `adjust` the buffer at the
returned indices; merge the per-update infos; split the key again; run the
SMC forward pass with the *pre-update* parameters `state.params`; merge the
SMC info; `add` the SMC output to the buffer; assemble the new state. -/
noncomputable def step {P O G X K S B I : Type} {nb : ℕ}
    (ctx : FabTraining P O G X K S B I nb)
    (state : TrainStateWithBuffer P K O S B) :
    TrainStateWithBuffer P K O S B × Info :=
  let ks := ctx.rng_split state.key
  let sampled := ctx.sample_n_batches ks.2 state.buffer_state
  let x_batches := sampled.1
  let indices := sampled.2
  let scanOut := scanUpdates (one_gradient_update ctx)
    (state.params, state.opt_state) x_batches
  let new_flow_params := scanOut.1.1
  let new_opt_state := scanOut.1.2
  let infos := scanOut.2.map (fun t => t.1)
  let log_w_adjust := scanOut.2.map (fun t => t.2.1)
  let log_q_recorded := scanOut.2.map (fun t => t.2.2)
  let buffer_state1 := ctx.buffer_adjust log_q_recorded log_w_adjust indices
    state.buffer_state
  let info1 := mergeInfos infos
  let ks2 := ctx.rng_split ks.1
  let smcOut := ctx.smc_forward state.params state.smc_state ks2.2
  let info2 := Info.update info1 smcOut.smc_info
  let buffer_state2 := ctx.buffer_add smcOut.x_smc smcOut.log_w smcOut.log_q
    buffer_state1
  ({ params := new_flow_params, key := ks2.1, opt_state := new_opt_state,
     smc_state := smcOut.smc_state, buffer_state := buffer_state2 }, info2)

/-! ## Optimizer construction (examples/create_train_config.py, lines 52-74)

`get_optimizer_and_step_fn` builds `optax.chain(*grad_transforms)` where
`grad_transforms` starts as `[optax.zero_nans()]`, optionally appends a
global-norm clipping transform, and finally appends the named optax
optimizer with the configured learning rate.  Configuration floats are
embedded as rationals so Python truthiness (`if optimizer_config.
max_global_norm:` is false for both `None` and `0.0`) is decidable. -/

/-- One optax gradient transformation in the chain. -/
inductive GradTransform : Type where
  | zeroNans : GradTransform
  | clipByGlobalNorm : ℚ → GradTransform
  | namedOptaxOptimizer : String → GradTransform

/-- The learning rate passed to the named optimizer: either a
warmup-cosine-decay schedule or a constant. -/
inductive LearningRate : Type where
  | warmupCosineDecaySchedule : (init_value peak_value end_value : ℚ) →
      (warmup_steps decay_steps : ℕ) → LearningRate
  | constant : ℚ → LearningRate

/-- Embedding of `OptimizerConfig` (examples/configs.py interface, as consumed by
`get_optimizer_and_step_fn`). -/
structure OptimizerConfig where
  init_lr : ℚ
  use_schedule : Bool
  optimizer_name : String
  max_global_norm : Option ℚ
  peak_lr : Option ℚ
  end_lr : Option ℚ
  warmup_n_epoch : Option ℕ

/-- Python truthiness of an optional float: `None` and `0.0` are falsy. -/
def pyTruthy : Option ℚ → Bool
  | none => false
  | some v => !(v == 0)

/-- Embedding of `get_optimizer_and_step_fn` (examples/create_train_config.py, lines
52-74), returning the chain of gradient transformations and the learning
rate.  The chain is built as
`[optax.zero_nans()] (++ [clip_by_global_norm]) ++ [named optimizer]`. -/
def get_optimizer_and_step_fn (cfg : OptimizerConfig)
    (n_iter_per_epoch total_n_epoch : ℕ) :
    List GradTransform × LearningRate :=
  let lr := if cfg.use_schedule then
      LearningRate.warmupCosineDecaySchedule cfg.init_lr (cfg.peak_lr.getD 0)
        (cfg.end_lr.getD 0) ((cfg.warmup_n_epoch.getD 0) * n_iter_per_epoch)
        (n_iter_per_epoch * total_n_epoch)
    else LearningRate.constant cfg.init_lr
  let grad_transforms := [GradTransform.zeroNans]
  let grad_transforms := if pyTruthy cfg.max_global_norm then
      grad_transforms ++ [GradTransform.clipByGlobalNorm (cfg.max_global_norm.getD 0)]
    else grad_transforms
  let grad_transforms := grad_transforms ++
    [GradTransform.namedOptaxOptimizer cfg.optimizer_name]
  (grad_transforms, lr)

/-! ## Theorems -/

/-- Claim C1: for every batch `x` of buffer samples with stored proposal
log-densities `log_q_old`, the loss returned by `fab_loss_buffer_samples`
equals `-mean(clip(exp((1-alpha)*(log_q_current - log_q_old)), max=w_clip)
* log_q_current)` where `log_q_current` is the flow log-density of `x`
under the current parameters, and the function additionally returns, per
sample, the log-weight adjustment `(1-alpha)*(log_q_current - log_q_old)`
and `log_q_current`. -/
theorem fab_loss_buffer_samples_formula {P X : Type} {nb : ℕ}
    (params : P) (x : X) (log_q_old : Fin nb → ℝ) (alpha : ℝ)
    (log_q_fn_apply : P → X → Fin nb → ℝ) (w_adjust_clip : ℝ) :
    fab_loss_buffer_samples params x log_q_old alpha log_q_fn_apply w_adjust_clip =
      (- ((∑ i, min (Real.exp ((1 - alpha) * (log_q_fn_apply params x i - log_q_old i)))
              w_adjust_clip * log_q_fn_apply params x i) / (nb : ℝ)),
       (fun i => (1 - alpha) * (log_q_fn_apply params x i - log_q_old i),
        fun i => log_q_fn_apply params x i)) := rfl

/-- Claim C5: for every `batch_size ≥ 1` and every configured minimum buffer
fill length, the number of samples with which `init` bulk-seeds the buffer,
`((min_length // batch_size) + 1) * batch_size`, is strictly greater than
the minimum fill length, so the buffer `init` underfull-failure condition is
never triggered by the training initialisation. -/
theorem init_seed_exceeds_min_length (min_length batch_size : ℕ)
    (h : 1 ≤ batch_size) :
    min_length < n_init_seed_samples min_length batch_size ∧
      ¬ buffer_init_underfull (n_init_seed_samples min_length batch_size) min_length := by
  have hlt : min_length < n_init_seed_samples min_length batch_size := by
    unfold n_init_seed_samples n_forward_pass
    have h1 := Nat.div_add_mod min_length batch_size
    have h2 : min_length % batch_size < batch_size := Nat.mod_lt _ h
    have h3 : (min_length / batch_size + 1) * batch_size
        = batch_size * (min_length / batch_size) + batch_size := by ring
    rw [h3]
    linarith
  refine ⟨hlt, fun hc => ?_⟩
  exact Nat.lt_asymm hlt hc

/-- Witness for C5 at the spec scenario `min fill = 32, batch_size = 16`:
the buffer is seeded with `48 > 32` samples. -/
theorem init_seed_exceeds_min_length_check :
    32 < n_init_seed_samples 32 16 ∧
      ¬ buffer_init_underfull (n_init_seed_samples 32 16) 32 :=
  init_seed_exceeds_min_length 32 16 (by decide)

/-- Claim C9: the double-well `log_prob_fn` is a pure function that, for
every rank-2 input (one configuration), returns the scalar negative energy
of that configuration; for every rank-3 input (a batch), returns the vector
of per-configuration negative energies (each entry agreeing with the rank-2
result on that configuration); and for an input of any other rank raises an
exception. -/
theorem log_prob_fn_rank_dispatch :
    (∀ (n d : ℕ) (x : Fin n → Fin d → ℝ),
        log_prob_fn (DWInput.rank2 n d x)
          = Except.ok (DWOutput.scalar (- energyDefault x))) ∧
    (∀ (b n d : ℕ) (x : Fin b → Fin n → Fin d → ℝ),
        log_prob_fn (DWInput.rank3 b n d x)
          = Except.ok (DWOutput.vector b (fun i => - energyDefault (x i))) ∧
        ∀ i : Fin b, log_prob_fn (DWInput.rank2 n d (x i))
          = Except.ok (DWOutput.scalar (- energyDefault (x i)))) ∧
    (∀ r : ℕ, r ≠ 2 → r ≠ 3 →
        log_prob_fn (DWInput.rankOther r) = Except.error "Exception") :=
  ⟨fun _ _ _ => rfl, fun _ _ _ _ => ⟨rfl, fun _ => rfl⟩, fun _ _ _ => rfl⟩

/-- Witness for C9: a rank-4 input raises the exception. -/
theorem log_prob_fn_rank_dispatch_check :
    log_prob_fn (DWInput.rankOther 4) = Except.error "Exception" :=
  log_prob_fn_rank_dispatch.2.2 4 (by decide) (by decide)

/-- Claim C2: within every training step, `sample_n_batches` reads the
buffer state as it was at the start of the step, `adjust` is applied to that
same start-of-step buffer state using exactly the indices returned by
`sample_n_batches` in the same step, and `add` is applied only afterwards:
the step's resulting buffer state equals `add` applied to the result of
`adjust` applied to the incoming buffer state (the `add` arguments coming
from the SMC forward pass, so the samples it adds are never visible to the
earlier `sample_n_batches` call). -/
theorem step_buffer_discipline {P O G X K S B I : Type} {nb : ℕ}
    (ctx : FabTraining P O G X K S B I nb)
    (s : TrainStateWithBuffer P K O S B) :
    (step ctx s).1.buffer_state =
      ctx.buffer_add
        (ctx.smc_forward s.params s.smc_state
          (ctx.rng_split (ctx.rng_split s.key).1).2).x_smc
        (ctx.smc_forward s.params s.smc_state
          (ctx.rng_split (ctx.rng_split s.key).1).2).log_w
        (ctx.smc_forward s.params s.smc_state
          (ctx.rng_split (ctx.rng_split s.key).1).2).log_q
        (ctx.buffer_adjust
          ((scanUpdates (one_gradient_update ctx) (s.params, s.opt_state)
              (ctx.sample_n_batches (ctx.rng_split s.key).2 s.buffer_state).1).2.map
            (fun t => t.2.2))
          ((scanUpdates (one_gradient_update ctx) (s.params, s.opt_state)
              (ctx.sample_n_batches (ctx.rng_split s.key).2 s.buffer_state).1).2.map
            (fun t => t.2.1))
          (ctx.sample_n_batches (ctx.rng_split s.key).2 s.buffer_state).2
          s.buffer_state) := rfl

/-- Claim C3: in every training step, the SMC forward pass is invoked with
the flow parameters as they stood at the start of the step (`s.params`, the
same pre-step snapshot the gradient updates start from), never with the
updated parameters: its result is the `smc_forward` output at `s.params`,
and is invariant under replacing the optimizer update rule (so it cannot
depend on any of the step's gradient updates). -/
theorem step_smc_uses_pre_step_params {P O G X K S B I : Type} {nb : ℕ}
    (ctx : FabTraining P O G X K S B I nb)
    (s : TrainStateWithBuffer P K O S B) :
    ((step ctx s).1.smc_state =
      (ctx.smc_forward s.params s.smc_state
        (ctx.rng_split (ctx.rng_split s.key).1).2).smc_state) ∧
    ∀ u : G → O → P → G × O,
      (step { ctx with opt_update := u } s).1.smc_state
        = (step ctx s).1.smc_state :=
  ⟨rfl, fun _ => rfl⟩

/-- Claim C8: the training step is deterministic: two invocations of `step`
on `TrainStateWithBuffer` inputs with equal flow parameters, RNG key,
optimizer state, SMC state and buffer state produce equal new states and
equal diagnostics records (the embedded `step` reads nothing but its state
argument and the fixed collaborators of the context, so no hidden
module-level mutable state can influence the result). -/
theorem step_deterministic {P O G X K S B I : Type} {nb : ℕ}
    (ctx : FabTraining P O G X K S B I nb)
    (s1 s2 : TrainStateWithBuffer P K O S B)
    (hp : s1.params = s2.params) (hk : s1.key = s2.key)
    (ho : s1.opt_state = s2.opt_state) (hs : s1.smc_state = s2.smc_state)
    (hb : s1.buffer_state = s2.buffer_state) :
    step ctx s1 = step ctx s2 := by
  cases s1
  cases s2
  cases hp
  cases hk
  cases ho
  cases hs
  cases hb
  rfl

/-! Concrete instantiations used by witnesses: every state type is `ℝ`
(a stand-in payload), the batch size is 1, and each collaborator is a simple
concrete function. -/

noncomputable def ctx0 : FabTraining ℝ ℝ ℝ ℝ ℝ ℝ ℝ ℝ 1 where
  flow_log_prob_apply := fun p x _ => p + x
  loss_grad := fun p _ _ => p
  opt_update := fun g o _ => (g, o)
  apply_updates := fun p g => p + g
  global_norm := fun g => g
  max_flat_grad := fun g => g
  opt_is_ignore_nan := false
  ignored_grads_count := fun _ => 0
  rng_split := fun k => (k + 1, k + 2)
  sample_n_batches := fun _ b => ([(b, fun _ => 0)], 0)
  buffer_adjust := fun _ _ _ b => b + 1
  buffer_add := fun _ _ _ b => b + 2
  smc_forward := fun p s _ =>
    { sample_flow := p, x_smc := p, log_w := fun _ => 0, log_q := fun _ => 0,
      smc_state := s + 1, smc_info := emptyInfo }
  alpha := 2
  w_adjust_clip := 10

noncomputable def state0 : TrainStateWithBuffer ℝ ℝ ℝ ℝ ℝ :=
  { params := 0, key := 0, opt_state := 0, smc_state := 0, buffer_state := 0 }

/-- Witness for C8: `step` at a concrete context and state, with all five
component equalities discharged by `rfl`. -/
theorem step_deterministic_check : step ctx0 state0 = step ctx0 state0 :=
  step_deterministic ctx0 state0 state0 rfl rfl rfl rfl rfl

/-- The carry threaded by `scanUpdates` is the left fold of the update
function, i.e. iterations run sequentially, each starting from the carry
produced by the previous one. -/
theorem scanUpdates_fst {C A D : Type} (f : C → A → C × D) :
    ∀ (xs : List A) (c : C),
      (scanUpdates f c xs).1 = xs.foldl (fun c2 a => (f c2 a).1) c
  | [], _ => rfl
  | a :: rest, c => by
    simp only [scanUpdates, List.foldl]
    exact scanUpdates_fst f rest (f c a).1

/-- The `i`-th output collected by `scanUpdates` is the output of the update
function applied to the carry obtained from the first `i` inputs and to the
`i`-th input. -/
theorem scanUpdates_getElem {C A D : Type} (f : C → A → C × D) :
    ∀ (xs : List A) (c : C) (i : ℕ),
      ((scanUpdates f c xs).2)[i]? =
        (xs[i]?).map (fun a => (f ((scanUpdates f c (xs.take i)).1) a).2)
  | [], c, i => by simp [scanUpdates]
  | a :: rest, c, 0 => by simp [scanUpdates]
  | a :: rest, c, i + 1 => by
    simp only [scanUpdates, List.getElem?_cons_succ, List.take_succ_cons]
    exact scanUpdates_getElem f rest (f c a).1 i

/-- Claim C4: the gradient updates within one training step are performed
sequentially, carrying flow parameters and optimizer state forward from each
update to the next (the scan carry is the left fold of
`one_gradient_update`), and the record for the `i`-th sampled batch — in
particular its log-weight adjustment and `log_q` pair, which equals the
auxiliary output of `fab_loss_buffer_samples` — is computed against the
parameters as they stood after only the first `i` updates, i.e. before the
update on batch `i` itself. -/
theorem gradient_updates_sequential_and_pre_update
    {P O G X K S B I : Type} {nb : ℕ}
    (ctx : FabTraining P O G X K S B I nb) (c : P × O)
    (xs : List (X × (Fin nb → ℝ))) :
    ((scanUpdates (one_gradient_update ctx) c xs).1 =
        xs.foldl (fun c2 a => (one_gradient_update ctx c2 a).1) c) ∧
    (∀ i : ℕ, ((scanUpdates (one_gradient_update ctx) c xs).2)[i]? =
        (xs[i]?).map (fun a => (one_gradient_update ctx
          ((scanUpdates (one_gradient_update ctx) c (xs.take i)).1) a).2)) ∧
    (∀ i : ℕ,
      ((((scanUpdates (one_gradient_update ctx) c xs).2)[i]?).map
          (fun t => t.2)) =
        (xs[i]?).map (fun a => (fab_loss_buffer_samples
          ((scanUpdates (one_gradient_update ctx) c (xs.take i)).1).1 a.1 a.2
          ctx.alpha ctx.flow_log_prob_apply ctx.w_adjust_clip).2)) := by
  refine ⟨scanUpdates_fst _ xs c, fun i => scanUpdates_getElem _ xs c i, fun i => ?_⟩
  rw [scanUpdates_getElem _ xs c i]
  cases xs[i]? with
  | none => rfl
  | some a => rfl

/-- The set of keys written by `one_gradient_update` into its per-update
info dict: always `loss`, `log10_grad_norm`, `log10_max_param_grad`, plus
`ignored_grad_count` exactly when the optimizer state is an
`IgnoreNanOptState`. -/
def updateInfoDom {P O G X K S B I : Type} {nb : ℕ}
    (ctx : FabTraining P O G X K S B I nb) (k : String) : Bool :=
  decide (k = "loss") || decide (k = "log10_grad_norm") ||
    decide (k = "log10_max_param_grad") ||
    (ctx.opt_is_ignore_nan && decide (k = "ignored_grad_count"))

/-- Every per-update info dict produced by `one_gradient_update` is defined
exactly on the keys of `updateInfoDom` — in particular the key set is the
same for every iteration of the scan. -/
theorem one_gradient_update_info_isSome {P O G X K S B I : Type} {nb : ℕ}
    (ctx : FabTraining P O G X K S B I nb) (carry : P × O)
    (xs : X × (Fin nb → ℝ)) (k : String) :
    (((one_gradient_update ctx carry xs).2.1) k).isSome
      = updateInfoDom ctx k := by
  cases hb : ctx.opt_is_ignore_nan <;>
    simp only [one_gradient_update, hb, updateInfoDom, Info.set, emptyInfo,
      Bool.false_eq_true, if_false, if_true, Bool.false_and, Bool.true_and,
      Bool.or_false] <;>
    split_ifs <;> simp_all

/-- Every collected output of `scanUpdates` is an output of the scanned
function at some carry and input. -/
theorem mem_scanUpdates_snd {C A D : Type} (f : C → A → C × D) :
    ∀ (xs : List A) (c : C) (t : D), t ∈ (scanUpdates f c xs).2 →
      ∃ c2 a, t = (f c2 a).2
  | [], _, t, h => by simp [scanUpdates] at h
  | a :: rest, c, t, h => by
    simp only [scanUpdates, List.mem_cons] at h
    rcases h with h | h
    · exact ⟨c, a, h⟩
    · exact mem_scanUpdates_snd f rest (f c a).1 t h

/-- The `getLastD` of a list is either the default or an element of the list. -/
theorem getLastD_eq_or_mem {A : Type} :
    ∀ (l : List A) (d : A), l.getLastD d = d ∨ l.getLastD d ∈ l
  | [], _ => Or.inl rfl
  | x :: xs, d => by
    have hcons : (x :: xs).getLastD d = xs.getLastD x := List.getLastD_cons d x xs
    rcases getLastD_eq_or_mem xs x with h | h
    · refine Or.inr ?_
      rw [hcons, h]
      exact List.mem_cons_self x xs
    · refine Or.inr ?_
      rw [hcons]
      exact List.mem_cons_of_mem x h

/-- Folding `Info.update` from the empty dict over a list of dicts that all
share one key domain `dom` yields, on `dom`, the values of the last dict,
and nothing outside `dom`: every iteration of the merge loop overwrites
every key. -/
theorem foldl_update_sameDom (dom : String → Bool) :
    ∀ (l : List Info) (e : Info),
      (∀ a ∈ l, ∀ k, (a k).isSome = dom k) →
      ∀ k, (l.foldl Info.update e) k
        = if dom k then (l.getLastD e) k else e k
  | [], e, _, k => by simp
  | x :: xs, e, h, k => by
    have hx : ∀ k2, (x k2).isSome = dom k2 := h x (List.mem_cons_self x xs)
    have hrec := foldl_update_sameDom dom xs (Info.update e x)
      (fun a ha k2 => h a (List.mem_cons_of_mem x ha) k2) k
    simp only [List.foldl_cons]
    rw [hrec, List.getLastD_cons]
    by_cases hd : dom k
    · simp only [hd, if_true]
      cases xs with
      | nil =>
        simp only [List.getLastD]
        rcases Option.isSome_iff_exists.mp (by rw [hx k, hd]) with ⟨v, hv⟩
        simp [Info.update, hv]
      | cons y ys => rw [List.getLastD_cons, List.getLastD_cons]
    · simp only [hd, if_false]
      have hdf : dom k = false := by
        cases hdk : dom k
        · rfl
        · exact absurd hdk hd
      have hnone : x k = none := by
        cases hc : x k with
        | none => rfl
        | some v =>
          have h2 := hx k
          rw [hc, hdf] at h2
          simp at h2
      simp [Info.update, hnone]

/-- Claim C10: the diagnostics record merged by the loop in `step` contains
the per-update metrics of only the last gradient update: the merged dict
agrees pointwise with the last per-update info dict produced by the scan of
`one_gradient_update` (the metrics of the earlier updates are discarded). -/
theorem step_info_merge_keeps_last {P O G X K S B I : Type} {nb : ℕ}
    (ctx : FabTraining P O G X K S B I nb) (c : P × O)
    (xs : List (X × (Fin nb → ℝ))) :
    ∀ k, mergeInfos
        ((scanUpdates (one_gradient_update ctx) c xs).2.map (fun t => t.1)) k
      = (((scanUpdates (one_gradient_update ctx) c xs).2.map
          (fun t => t.1)).getLastD emptyInfo) k := by
  intro k
  have hdom : ∀ a ∈ (scanUpdates (one_gradient_update ctx) c xs).2.map
      (fun t => t.1), ∀ k2, (a k2).isSome = updateInfoDom ctx k2 := by
    intro a ha k2
    rcases List.mem_map.mp ha with ⟨t, ht, rfl⟩
    rcases mem_scanUpdates_snd _ xs c t ht with ⟨c2, b, rfl⟩
    exact one_gradient_update_info_isSome ctx c2 b k2
  have h := foldl_update_sameDom (updateInfoDom ctx)
    ((scanUpdates (one_gradient_update ctx) c xs).2.map (fun t => t.1))
    emptyInfo hdom k
  by_cases hd : updateInfoDom ctx k
  · rw [mergeInfos, h, if_pos hd]
  · have hdf : updateInfoDom ctx k = false := by
      cases hdk : updateInfoDom ctx k
      · rfl
      · exact absurd hdk hd
    rw [mergeInfos, h, if_neg hd]
    rcases getLastD_eq_or_mem
        ((scanUpdates (one_gradient_update ctx) c xs).2.map (fun t => t.1))
        emptyInfo with h2 | h2
    · rw [h2]
    · have h3 := hdom _ h2 k
      rw [hdf] at h3
      cases hc : ((scanUpdates (one_gradient_update ctx) c xs).2.map
          (fun t => t.1)).getLastD emptyInfo k with
      | none => rfl
      | some v => rw [hc] at h3; simp at h3

/-- A context whose optimizer is built by `get_optimizer_and_step_fn`:
that optimizer is `optax.chain(zero_nans(), ...)`, whose state is an optax
chain-state tuple and not an instance of the repository's custom
`IgnoreNanOptState` wrapper, so the trace-time check
`isinstance(opt_state, IgnoreNanOptState)` in `one_gradient_update` is
`False`; hence `opt_is_ignore_nan := false` here (the remaining
collaborators are the simple concrete stand-ins of `ctx0`). -/
noncomputable def chainOptimizerCtx : FabTraining ℝ ℝ ℝ ℝ ℝ ℝ ℝ ℝ 1 :=
  { ctx0 with opt_is_ignore_nan := false }

/-- A context whose optimizer state is the custom `IgnoreNanOptState`
wrapper, for which the trace-time `isinstance` check is `True`. -/
noncomputable def ignoreNanOptimizerCtx : FabTraining ℝ ℝ ℝ ℝ ℝ ℝ ℝ ℝ 1 :=
  { ctx0 with opt_is_ignore_nan := true, ignored_grads_count := fun _ => 3 }

/-- Counterexample to claim C6 as stated: with the `optax.chain` optimizer
built by `get_optimizer_and_step_fn` (whose state is not an
`IgnoreNanOptState`, so `opt_is_ignore_nan = false`), the diagnostics
record returned by a concrete training step does *not* contain the
`ignored_grad_count` key: the guard
`isinstance(opt_state, IgnoreNanOptState)` in `one_gradient_update`
suppresses it. -/
theorem step_chain_optimizer_no_ignored_count :
    (step chainOptimizerCtx state0).2 "ignored_grad_count" = none := rfl

/-- Claim C6 (amended): the optimizer built by `get_optimizer_and_step_fn`
always has the NaN-zeroing transform `optax.zero_nans()` as the first
element of its chain, before any clipping or parameter update, for every
optimizer configuration; and the training step surfaces the count of
ignored NaN gradients as `ignored_grad_count` exactly when the optimizer
state is an `IgnoreNanOptState` (which the chain state built by
`get_optimizer_and_step_fn` is not). -/
theorem zero_nans_first_and_count_surfaced_iff_ignore_nan_state :
    (∀ (cfg : OptimizerConfig) (n_iter_per_epoch total_n_epoch : ℕ),
      ((get_optimizer_and_step_fn cfg n_iter_per_epoch total_n_epoch).1).head?
        = some GradTransform.zeroNans) ∧
    (∀ {P O G X K S B I : Type} {nb : ℕ}
      (ctx : FabTraining P O G X K S B I nb) (carry : P × O)
      (xs : X × (Fin nb → ℝ)),
      ctx.opt_is_ignore_nan = true →
      ((one_gradient_update ctx carry xs).2.1) "ignored_grad_count"
        = some ((ctx.ignored_grads_count carry.2 : ℕ) : ℝ)) := by
  constructor
  · intro cfg n t
    unfold get_optimizer_and_step_fn
    by_cases h : pyTruthy cfg.max_global_norm <;> simp [h]
  · intro P O G X K S B I nb ctx carry xs hflag
    simp [one_gradient_update, hflag, Info.set]

/-- Witness for C6 (amended): at a concrete context with an
`IgnoreNanOptState` optimizer state, the per-update info dict carries the
ignored-gradients count. -/
theorem zero_nans_first_and_count_surfaced_check :
    ((one_gradient_update ignoreNanOptimizerCtx ((0:ℝ), (5:ℝ))
        ((0:ℝ), fun _ => 0)).2.1) "ignored_grad_count"
      = some ((ignoreNanOptimizerCtx.ignored_grads_count 5 : ℕ) : ℝ) :=
  zero_nans_first_and_count_surfaced_iff_ignore_nan_state.2
    ignoreNanOptimizerCtx ((0:ℝ), (5:ℝ)) ((0:ℝ), fun _ => 0) rfl

/-! ## ESS diagnostic theorems -/

/-- Helper: the softmax of a constant logit vector over `m ≥ 1` entries is
the uniform distribution `1/m`. -/
theorem softmax_const {m : ℕ} (hm : 0 < m) (c : ℝ) (i : Fin m) :
    softmax (fun _ : Fin m => c) i = 1 / m := by
  unfold softmax
  rw [Finset.sum_const, Finset.card_univ, Fintype.card_fin, nsmul_eq_mul]
  have hmr : (0:ℝ) < m := Nat.cast_pos.mpr hm
  rw [div_eq_div_iff (by positivity) (by positivity)]
  ring

/-- Helper: the sum of squared softmax values of a constant logit vector
over `m ≥ 1` entries is `1/m`. -/
theorem sum_sq_softmax_const {m : ℕ} (hm : 0 < m) (c : ℝ) :
    (∑ i : Fin m, softmax (fun _ : Fin m => c) i ^ 2) = 1 / m := by
  have hm0 : ((m : ℝ)) ≠ 0 := Nat.cast_ne_zero.mpr hm.ne'
  rw [Finset.sum_congr rfl (fun i _ => by rw [softmax_const hm c i]),
    Finset.sum_const, Finset.card_univ, Fintype.card_fin, nsmul_eq_mul,
    div_pow, one_pow, mul_one_div, sq, div_mul_eq_div_div, div_self hm0]

/-- Counterexample to claim C7 as stated: at uniform weights over 100
particles, the ESS diagnostic reported by `eval_fn` is *not*
`1 / Σ(normalized weight²)` (which would be the particle count 100): the
code divides by the particle count, so it reports 1. -/
theorem ess_diagnostic_counterexample :
    ess_diagnostic (fun _ : Fin 100 => (0:ℝ))
      ≠ 1 / ∑ i : Fin 100, softmax (fun _ : Fin 100 => (0:ℝ)) i ^ 2 := by
  have hs := sum_sq_softmax_const (m := 100) (by norm_num) (0:ℝ)
  unfold ess_diagnostic
  rw [hs]
  norm_num

/-- Claim C7 (amended): the effective-sample-size diagnostic reported by
`eval_fn` equals `1 / Σ(normalized weight²)` divided by the number of
particles — the ESS as a fraction of the particle count — where the
normalized weights are the softmax of the importance log-weights; in
particular, for uniform weights over `N ≥ 1` particles it equals 1 (not the
particle count `N`). -/
theorem ess_diagnostic_fraction :
    (∀ (m : ℕ) (w : Fin m → ℝ),
      ess_diagnostic w = 1 / (∑ i, softmax w i ^ 2) / (m : ℝ)) ∧
    (∀ (m : ℕ), 0 < m → ∀ c : ℝ,
      ess_diagnostic (fun _ : Fin m => c) = 1) := by
  refine ⟨fun m w => rfl, fun m hm c => ?_⟩
  have hm0 : ((m : ℝ)) ≠ 0 := Nat.cast_ne_zero.mpr hm.ne'
  unfold ess_diagnostic
  rw [sum_sq_softmax_const hm c, one_div_one_div, div_self hm0]

/-- Witness for C7 (amended), at the spec scenario of 100 particles with
uniform weights: the reported diagnostic is 1. -/
theorem ess_diagnostic_fraction_check :
    ess_diagnostic (fun _ : Fin 100 => (0:ℝ)) = 1 :=
  ess_diagnostic_fraction.2 100 (by norm_num) 0
